import Mathlib

/-!
Verification of `easyclimate.plot.quick_draw.quick_draw_spatial_basemap`
(`src/easyclimate/plot/quick_draw.py`).

The function is a thin façade: it calls `matplotlib.pyplot.subplots` once with
a shared `cartopy.crs.PlateCarree(central_longitude=...)` projection, then
decorates either the single returned axes (1×1 grid) or every element of
`ax.flat` with one `gridlines` call followed by one `coastlines` call, and
returns `(fig, ax)`.

The embedding below models an axes object as a record carrying its projection
and the ordered list of decoration calls recorded against it, and models the
external providers faithfully:

* `subplots` follows matplotlib's documented behaviour under the default
  `squeeze=True` (the source does not pass `squeeze`): a 1×1 grid yields a
  scalar axes, an `N×1` or `1×M` grid a 1-D array of `N*M` axes, any other
  grid a 2-D array of shape `(nrows, ncols)`;
* `gridlines` / `coastlines` append a record of the call, with its exact
  arguments, to the axes' decoration list.

A second, fallible model (`quick_draw_spatial_basemapE`) instruments every
provider call with an error oracle, to settle the error-propagation and
partial-decoration claims: a `some e` from an oracle models the corresponding
Python call raising exception `e`.
-/

namespace EasyClimate

/-- Model of the `draw_labels` argument of `quick_draw_spatial_basemap`: the
Python value is a string, a boolean, a list of side/axis identifiers, or a
dict from side identifiers to coordinate names. -/
inductive DrawLabels where
  | str (s : String)
  | bool (b : Bool)
  | list (xs : List String)
  | dict (m : List (String × String))
deriving DecidableEq

/-- Model of `cartopy.crs.PlateCarree(central_longitude=...)`: a cylindrical
equirectangular projection, determined by its central meridian longitude.
Longitudes are modelled as rationals. -/
structure PlateCarree where
  central_longitude : Rat
deriving DecidableEq

/-- One recorded call
`ax.gridlines(draw_labels=..., color=..., alpha=..., linestyle=...)`
(source lines 72–77 and 81–86). -/
structure GridlinesCall where
  draw_labels : DrawLabels
  color : String
  alpha : Rat
  linestyle : String
deriving DecidableEq

/-- One recorded call `ax.coastlines(edgecolor=..., linewidths=...)`
(source lines 78 and 87–89). -/
structure CoastlinesCall where
  edgecolor : String
  linewidths : Rat
deriving DecidableEq

/-- A decoration operation applied to one axes object, as recorded against a
stub decoration provider. -/
inductive Decoration where
  | gridlines (call : GridlinesCall)
  | coastlines (call : CoastlinesCall)
deriving DecidableEq

/-- Model of one cartopy `GeoAxes` object: the projection it was created with
and the list of decoration calls applied to it, in call order. -/
structure Axes where
  projection : PlateCarree
  decorations : List Decoration
deriving DecidableEq

/-- A freshly constructed axes with projection `p`: no decoration has been
applied to it yet. -/
def freshAxes (p : PlateCarree) : Axes :=
  { projection := p, decorations := [] }

/-- Model of the matplotlib `Figure` returned by `plt.subplots`: for this
component only the requested grid shape is observable. -/
structure Figure where
  nrows : Nat
  ncols : Nat
deriving DecidableEq

/-- The axes value returned by `matplotlib.pyplot.subplots` under the default
`squeeze=True`: a scalar `Axes`, a 1-D array, or a 2-D array (row-major list
of rows). -/
inductive AxesReturn where
  | scalar (a : Axes)
  | array1 (v : List Axes)
  | array2 (m : List (List Axes))
deriving DecidableEq

/-- `ax.flat`: the row-major flattening of an axes value (a scalar axes
flattens to the one-element sequence). -/
def AxesReturn.flat : AxesReturn → List Axes
  | AxesReturn.scalar a => [a]
  | AxesReturn.array1 v => v
  | AxesReturn.array2 m => m.flatten

/-- Apply `f` to every axes element, preserving the array structure.  This is
the net effect of mutating each element of `ax.flat` in place. -/
def AxesReturn.map (f : Axes → Axes) : AxesReturn → AxesReturn
  | AxesReturn.scalar a => AxesReturn.scalar (f a)
  | AxesReturn.array1 v => AxesReturn.array1 (v.map f)
  | AxesReturn.array2 m => AxesReturn.array2 (m.map (fun row => row.map f))

/-- The numpy-style shape of an axes value: `[]` for a scalar, `[n]` for a
1-D array of `n` axes, `[r, c]` for a 2-D array of `r` rows of `c` axes. -/
def AxesReturn.shape : AxesReturn → List Nat
  | AxesReturn.scalar _ => []
  | AxesReturn.array1 v => [v.length]
  | AxesReturn.array2 m => [m.length, (m.head?.map List.length).getD 0]

/-- Model of
`plt.subplots(nrows=nrows, ncols=ncols, subplot_kw={"projection": p})`
(source lines 63–69).  Every axes of the grid is created with the same single
projection object `p` and an empty decoration list.  The return shape follows
matplotlib's documented default `squeeze=True` behaviour: scalar for a 1×1
grid, a 1-D array of `nrows * ncols` axes for `N×1` or `1×M` grids, and a 2-D
`nrows × ncols` array otherwise. -/
def subplots (nrows ncols : Nat) (p : PlateCarree) : Figure × AxesReturn :=
  let fig : Figure := { nrows := nrows, ncols := ncols }
  if nrows = 1 ∧ ncols = 1 then
    (fig, AxesReturn.scalar (freshAxes p))
  else if nrows = 1 ∨ ncols = 1 then
    (fig, AxesReturn.array1 (List.replicate (nrows * ncols) (freshAxes p)))
  else
    (fig, AxesReturn.array2
      (List.replicate nrows (List.replicate ncols (freshAxes p))))

/-- The effect on one axes of the decoration sequence of
`quick_draw_spatial_basemap`: `gridlines(...)` followed by `coastlines(...)`
records the two calls, in that order, on the axes. -/
def decorate (g : GridlinesCall) (c : CoastlinesCall) (a : Axes) : Axes :=
  { a with decorations :=
      a.decorations ++ [Decoration.gridlines g, Decoration.coastlines c] }

/-- An axes that has received its `gridlines` call but not (or not yet) its
`coastlines` call. -/
def gridlinesOnly (g : GridlinesCall) (a : Axes) : Axes :=
  { a with decorations := a.decorations ++ [Decoration.gridlines g] }

/-- The observable outcome of one call to `quick_draw_spatial_basemap`: the
returned figure and axes value, together with the state of the (mutable)
`draw_labels` argument object after the call returns. -/
structure CallResult where
  fig : Figure
  ax : AxesReturn
  draw_labels_final : DrawLabels
deriving DecidableEq

/-- Shallow embedding of `quick_draw_spatial_basemap`
(source lines 13–90).  The source constructs the grid with one `plt.subplots`
call sharing a single `PlateCarree(central_longitude)` projection, then, if
`nrows == 1 and ncols == 1`, decorates the scalar axes directly, and otherwise
decorates each element of `ax.flat`; each decoration is one `gridlines` call
(with `draw_labels`, `color`, `alpha`, `linestyle`) followed by one
`coastlines` call (with `edgecolor`, `linewidths`), identical for every axes.
The source performs no operation on the `draw_labels` object other than
passing it to `gridlines`, so its final state equals its initial state. -/
def quick_draw_spatial_basemap
    (nrows : Nat) (ncols : Nat) (central_longitude : Rat)
    (draw_labels : DrawLabels)
    (gridlines_color : String) (gridlines_alpha : Rat)
    (gridlines_linestyle : String)
    (coastlines_edgecolor : String) (coastlines_linewidths : Rat) :
    CallResult :=
  let fa := subplots nrows ncols { central_longitude := central_longitude }
  let g : GridlinesCall :=
    { draw_labels := draw_labels
      color := gridlines_color
      alpha := gridlines_alpha
      linestyle := gridlines_linestyle }
  let c : CoastlinesCall :=
    { edgecolor := coastlines_edgecolor
      linewidths := coastlines_linewidths }
  let ax :=
    if nrows = 1 ∧ ncols = 1 then
      match fa.2 with
      | AxesReturn.scalar a => AxesReturn.scalar (decorate g c a)
      | other => other
    else
      AxesReturn.map (decorate g c) fa.2
  { fig := fa.1, ax := ax, draw_labels_final := draw_labels }

/-- The default value of the `draw_labels` parameter in the source signature:
the list `["bottom", "left"]`.  In Python this is a single mutable list
object, created once and shared by every invocation that does not pass
`draw_labels` explicitly. -/
def defaultDrawLabels : DrawLabels :=
  DrawLabels.list ["bottom", "left"]

/-- An invocation of `quick_draw_spatial_basemap` with no arguments: every
parameter takes the default value from the source signature
(source lines 13–23). -/
def quick_draw_spatial_basemap_defaults : CallResult :=
  quick_draw_spatial_basemap 1 1 0 defaultDrawLabels
    "grey" (1/2) "--" "black" (1/2)

/-- `n` successive invocations of `quick_draw_spatial_basemap` with no
arguments.  In Python the default `draw_labels` list is one shared object, so
each call receives that object in whatever state the previous call left it;
the object's state is threaded through `draw_labels_final`. -/
def repeatedDefaultCalls : Nat → DrawLabels → List CallResult
  | 0, _ => []
  | Nat.succ n, dl =>
      let r := quick_draw_spatial_basemap 1 1 0 dl "grey" (1/2) "--" "black" (1/2)
      r :: repeatedDefaultCalls n r.draw_labels_final

/-- Fallible model of the decoration of the axes with flat index `i`: the
`gridlines` call raises when `glErr i = some e`, otherwise it records the
gridlines decoration; then the `coastlines` call raises when
`clErr i = some e`, otherwise it records the coastlines decoration.  Returns
the axes state after the two calls (or after the raising call) and the raised
exception, if any. -/
def decorateOneE {ε : Type} (g : GridlinesCall) (c : CoastlinesCall)
    (glErr clErr : Nat → Option ε) (i : Nat) (a : Axes) : Axes × Option ε :=
  match glErr i with
  | some e => (a, some e)
  | none =>
      match clErr i with
      | some e => (gridlinesOnly g a, some e)
      | none => (decorate g c a, none)

/-- Fallible model of the loop `for axi in ax.flat: ...` starting at flat
index `i`: axes are decorated in order until a call raises; the exception
stops the loop, already-applied decorations persist, and the remaining axes
are left untouched. -/
def decorateFlatE {ε : Type} (g : GridlinesCall) (c : CoastlinesCall)
    (glErr clErr : Nat → Option ε) : Nat → List Axes → List Axes × Option ε
  | _, [] => ([], none)
  | i, a :: rest =>
      match decorateOneE g c glErr clErr i a with
      | (a1, some e) => (a1 :: rest, some e)
      | (a1, none) =>
          let res := decorateFlatE g c glErr clErr (i + 1) rest
          (a1 :: res.1, res.2)

/-- Fallible decoration of a 2-D axes array, row by row in row-major order:
the flat index of the first axes of a row is the number of axes in the rows
before it. -/
def decorateRowsE {ε : Type} (g : GridlinesCall) (c : CoastlinesCall)
    (glErr clErr : Nat → Option ε) :
    Nat → List (List Axes) → List (List Axes) × Option ε
  | _, [] => ([], none)
  | i, row :: rest =>
      match decorateFlatE g c glErr clErr i row with
      | (row1, some e) => (row1 :: rest, some e)
      | (row1, none) =>
          let res := decorateRowsE g c glErr clErr (i + row.length) rest
          (row1 :: res.1, res.2)

/-- Outcome of a call in the fallible model: either the function returns
`(fig, ax)` normally, or an exception `e` escapes to the caller.  When an
exception escapes, nothing is returned to the caller; `leftover` records the
figure and axes objects that were already constructed and persist in the
plotting session (`none` when construction itself raised, so that no axes
object was ever created). -/
inductive RunOutcome (ε : Type) where
  | ok (fig : Figure) (ax : AxesReturn)
  | raised (e : ε) (leftover : Option (Figure × AxesReturn))
deriving DecidableEq

/-- The exception that escaped the call, if any. -/
def RunOutcome.error? {ε : Type} : RunOutcome ε → Option ε
  | RunOutcome.ok _ _ => none
  | RunOutcome.raised e _ => some e

/-- The flattened states of the constructed axes objects once the call has
ended, whether it returned or raised (`none` when construction itself raised
and no axes exists). -/
def RunOutcome.axesState {ε : Type} : RunOutcome ε → Option (List Axes)
  | RunOutcome.ok _ ax => some ax.flat
  | RunOutcome.raised _ none => none
  | RunOutcome.raised _ (some st) => some st.2.flat

/-- Fallible model of `quick_draw_spatial_basemap`: `subplotsErr = some e`
models the `plt.subplots` construction call raising `e` (so the function
aborts before any axes exists), and `glErr` / `clErr` model the `gridlines` /
`coastlines` call on the axes with the given flat index raising.  The grid
style parameters are bundled in `g` and `c`; the control flow is exactly the
source's: the scalar branch decorates the single axes directly, the other
branch runs the loop over `ax.flat`. -/
def quick_draw_spatial_basemapE {ε : Type} (nrows ncols : Nat)
    (central_longitude : Rat) (g : GridlinesCall) (c : CoastlinesCall)
    (subplotsErr : Option ε) (glErr clErr : Nat → Option ε) : RunOutcome ε :=
  match subplotsErr with
  | some e => RunOutcome.raised e none
  | none =>
      let fa := subplots nrows ncols { central_longitude := central_longitude }
      if nrows = 1 ∧ ncols = 1 then
        match fa.2 with
        | AxesReturn.scalar a =>
            match decorateOneE g c glErr clErr 0 a with
            | (a1, some e) =>
                RunOutcome.raised e (some (fa.1, AxesReturn.scalar a1))
            | (a1, none) => RunOutcome.ok fa.1 (AxesReturn.scalar a1)
        | other => RunOutcome.ok fa.1 other
      else
        match fa.2 with
        | AxesReturn.scalar a => RunOutcome.ok fa.1 (AxesReturn.scalar a)
        | AxesReturn.array1 v =>
            match decorateFlatE g c glErr clErr 0 v with
            | (v1, some e) =>
                RunOutcome.raised e (some (fa.1, AxesReturn.array1 v1))
            | (v1, none) => RunOutcome.ok fa.1 (AxesReturn.array1 v1)
        | AxesReturn.array2 m =>
            match decorateRowsE g c glErr clErr 0 m with
            | (m1, some e) =>
                RunOutcome.raised e (some (fa.1, AxesReturn.array2 m1))
            | (m1, none) => RunOutcome.ok fa.1 (AxesReturn.array2 m1)

/-! ### Helper lemmas: the pure model -/

theorem flatten_replicate_replicate (n m : Nat) (a : Axes) :
    (List.replicate n (List.replicate m a)).flatten = List.replicate (n * m) a := by
  induction n with
  | zero => simp
  | succ k ih =>
      rw [List.replicate_succ, List.flatten_cons, ih, ← List.replicate_add]
      congr 1
      ring

theorem subplots_fst (nrows ncols : Nat) (p : PlateCarree) :
    (subplots nrows ncols p).1 = { nrows := nrows, ncols := ncols } := by
  simp only [subplots]
  split_ifs <;> rfl

theorem subplots_snd_flat (nrows ncols : Nat) (p : PlateCarree) :
    ((subplots nrows ncols p).2).flat =
      List.replicate (nrows * ncols) (freshAxes p) := by
  simp only [subplots]
  split_ifs with h1 h2
  · obtain ⟨h, h'⟩ := h1
    subst h; subst h'
    simp [AxesReturn.flat]
  · simp [AxesReturn.flat]
  · simp [AxesReturn.flat, flatten_replicate_replicate]

theorem AxesReturn.flat_map (f : Axes → Axes) (ar : AxesReturn) :
    (AxesReturn.map f ar).flat = ar.flat.map f := by
  cases ar with
  | scalar a => rfl
  | array1 v => rfl
  | array2 m =>
      simp [AxesReturn.map, AxesReturn.flat, List.map_flatten]

theorem quick_draw_fig (nrows ncols : Nat) (cl : Rat) (dl : DrawLabels)
    (gc : String) (ga : Rat) (gs : String) (ce : String) (cw : Rat) :
    (quick_draw_spatial_basemap nrows ncols cl dl gc ga gs ce cw).fig =
      { nrows := nrows, ncols := ncols } := by
  simp only [quick_draw_spatial_basemap]
  exact subplots_fst nrows ncols { central_longitude := cl }

theorem quick_draw_ax_map (nrows ncols : Nat) (cl : Rat) (dl : DrawLabels)
    (gc : String) (ga : Rat) (gs : String) (ce : String) (cw : Rat) :
    (quick_draw_spatial_basemap nrows ncols cl dl gc ga gs ce cw).ax =
      AxesReturn.map
        (decorate { draw_labels := dl, color := gc, alpha := ga, linestyle := gs }
          { edgecolor := ce, linewidths := cw })
        ((subplots nrows ncols { central_longitude := cl }).2) := by
  simp only [quick_draw_spatial_basemap]
  split_ifs with h
  · obtain ⟨h1, h2⟩ := h
    subst h1; subst h2
    simp [subplots, AxesReturn.map]
  · rfl

theorem quick_draw_ax_flat (nrows ncols : Nat) (cl : Rat) (dl : DrawLabels)
    (gc : String) (ga : Rat) (gs : String) (ce : String) (cw : Rat) :
    (quick_draw_spatial_basemap nrows ncols cl dl gc ga gs ce cw).ax.flat =
      List.replicate (nrows * ncols)
        (decorate { draw_labels := dl, color := gc, alpha := ga, linestyle := gs }
          { edgecolor := ce, linewidths := cw }
          (freshAxes { central_longitude := cl })) := by
  rw [quick_draw_ax_map, AxesReturn.flat_map, subplots_snd_flat,
    List.map_replicate]

/-! ### Helper lemmas: the fallible model -/

theorem decorateOneE_none {ε : Type} (g : GridlinesCall) (c : CoastlinesCall)
    (glErr clErr : Nat → Option ε) (i : Nat) (a : Axes)
    (hg : glErr i = none) (hc : clErr i = none) :
    decorateOneE g c glErr clErr i a = (decorate g c a, none) := by
  simp [decorateOneE, hg, hc]

theorem decorateOneE_err {ε : Type} (g : GridlinesCall) (c : CoastlinesCall)
    (glErr clErr : Nat → Option ε) (i : Nat) (a : Axes) (e : ε)
    (h : (decorateOneE g c glErr clErr i a).2 = some e) :
    glErr i = some e ∨ clErr i = some e := by
  cases hg : glErr i with
  | some e1 =>
      simp [decorateOneE, hg] at h
      subst h
      exact Or.inl rfl
  | none =>
      cases hc : clErr i with
      | some e1 =>
          simp [decorateOneE, hg, hc] at h
          subst h
          exact Or.inr rfl
      | none =>
          simp [decorateOneE, hg, hc] at h

theorem decorateFlatE_none {ε : Type} (g : GridlinesCall) (c : CoastlinesCall)
    (glErr clErr : Nat → Option ε) (xs : List Axes) :
    ∀ i, (∀ j, j < xs.length → glErr (i + j) = none ∧ clErr (i + j) = none) →
    decorateFlatE g c glErr clErr i xs = (xs.map (decorate g c), none) := by
  induction xs with
  | nil => intro i _; rfl
  | cons a rest ih =>
      intro i h
      have h0 := h 0 (by simp)
      rw [Nat.add_zero] at h0
      have hone := decorateOneE_none g c glErr clErr i a h0.1 h0.2
      have hrest := ih (i + 1) (fun j hj => by
        have hh := h (j + 1) (by simpa using Nat.succ_lt_succ hj)
        have eidx : i + (j + 1) = i + 1 + j := by omega
        rw [eidx] at hh
        exact hh)
      simp [decorateFlatE, hone, hrest]

theorem decorateFlatE_err {ε : Type} (g : GridlinesCall) (c : CoastlinesCall)
    (glErr clErr : Nat → Option ε) (e : ε) :
    ∀ (xs : List Axes) (i : Nat),
    (decorateFlatE g c glErr clErr i xs).2 = some e →
    ∃ j, glErr j = some e ∨ clErr j = some e := by
  intro xs
  induction xs with
  | nil => intro i h; simp [decorateFlatE] at h
  | cons a rest ih =>
      intro i h
      simp only [decorateFlatE] at h
      rcases hone : decorateOneE g c glErr clErr i a with ⟨a1, err1⟩
      rw [hone] at h
      cases err1 with
      | some e1 =>
          simp at h
          subst h
          exact ⟨i, decorateOneE_err g c glErr clErr i a e1 (by rw [hone])⟩
      | none =>
          simp at h
          exact ih (i + 1) h

theorem decorateFlatE_glErr {ε : Type} (g : GridlinesCall) (c : CoastlinesCall)
    (glErr clErr : Nat → Option ε) (a : Axes) (e : ε) :
    ∀ (k n i : Nat), k < n →
    (∀ j, j < k → glErr (i + j) = none ∧ clErr (i + j) = none) →
    glErr (i + k) = some e →
    decorateFlatE g c glErr clErr i (List.replicate n a) =
      (List.replicate k (decorate g c a) ++ List.replicate (n - k) a, some e) := by
  intro k
  induction k with
  | zero =>
      intro n i hk _ hg
      obtain ⟨m, rfl⟩ : ∃ m, n = m + 1 := ⟨n - 1, by omega⟩
      rw [Nat.add_zero] at hg
      simp [List.replicate_succ, decorateFlatE, decorateOneE, hg]
  | succ k ih =>
      intro n i hk h hg
      obtain ⟨m, rfl⟩ : ∃ m, n = m + 1 := ⟨n - 1, by omega⟩
      have h0 := h 0 (by omega)
      rw [Nat.add_zero] at h0
      have hone := decorateOneE_none g c glErr clErr i a h0.1 h0.2
      have hrec := ih m (i + 1) (by omega)
        (fun j hj => by
          have hh := h (j + 1) (by omega)
          have eidx : i + (j + 1) = i + 1 + j := by omega
          rw [eidx] at hh
          exact hh)
        (by
          have eidx : i + (k + 1) = i + 1 + k := by omega
          rw [eidx] at hg
          exact hg)
      simp [List.replicate_succ, decorateFlatE, hone, hrec, Nat.succ_sub_succ]

theorem decorateFlatE_clErr {ε : Type} (g : GridlinesCall) (c : CoastlinesCall)
    (glErr clErr : Nat → Option ε) (a : Axes) (e : ε) :
    ∀ (k n i : Nat), k < n →
    (∀ j, j < k → glErr (i + j) = none ∧ clErr (i + j) = none) →
    glErr (i + k) = none → clErr (i + k) = some e →
    decorateFlatE g c glErr clErr i (List.replicate n a) =
      (List.replicate k (decorate g c a) ++
        gridlinesOnly g a :: List.replicate (n - k - 1) a, some e) := by
  intro k
  induction k with
  | zero =>
      intro n i hk _ hg hc
      obtain ⟨m, rfl⟩ : ∃ m, n = m + 1 := ⟨n - 1, by omega⟩
      rw [Nat.add_zero] at hg
      rw [Nat.add_zero] at hc
      simp [List.replicate_succ, decorateFlatE, decorateOneE, hg, hc]
  | succ k ih =>
      intro n i hk h hg hc
      obtain ⟨m, rfl⟩ : ∃ m, n = m + 1 := ⟨n - 1, by omega⟩
      have h0 := h 0 (by omega)
      rw [Nat.add_zero] at h0
      have hone := decorateOneE_none g c glErr clErr i a h0.1 h0.2
      have eidx : i + (k + 1) = i + 1 + k := by omega
      rw [eidx] at hg
      rw [eidx] at hc
      have hrec := ih m (i + 1) (by omega)
        (fun j hj => by
          have hh := h (j + 1) (by omega)
          have eidx2 : i + (j + 1) = i + 1 + j := by omega
          rw [eidx2] at hh
          exact hh)
        hg hc
      simp [List.replicate_succ, decorateFlatE, hone, hrec, Nat.succ_sub_succ]

theorem decorateFlatE_append_err {ε : Type} (g : GridlinesCall)
    (c : CoastlinesCall) (glErr clErr : Nat → Option ε) (e : ε) :
    ∀ (xs ys : List Axes) (i : Nat),
    (decorateFlatE g c glErr clErr i xs).2 = some e →
    decorateFlatE g c glErr clErr i (xs ++ ys) =
      ((decorateFlatE g c glErr clErr i xs).1 ++ ys, some e) := by
  intro xs
  induction xs with
  | nil => intro ys i h; simp [decorateFlatE] at h
  | cons a rest ih =>
      intro ys i h
      rcases hone : decorateOneE g c glErr clErr i a with ⟨a1, err1⟩
      cases err1 with
      | some e1 =>
          simp [decorateFlatE, hone] at h
          subst h
          simp [decorateFlatE, hone]
      | none =>
          simp [decorateFlatE, hone] at h
          have hih := ih ys (i + 1) h
          simp [decorateFlatE, hone, hih]

theorem decorateFlatE_append_ok {ε : Type} (g : GridlinesCall)
    (c : CoastlinesCall) (glErr clErr : Nat → Option ε) :
    ∀ (xs ys : List Axes) (i : Nat),
    (decorateFlatE g c glErr clErr i xs).2 = none →
    decorateFlatE g c glErr clErr i (xs ++ ys) =
      ((decorateFlatE g c glErr clErr i xs).1 ++
        (decorateFlatE g c glErr clErr (i + xs.length) ys).1,
        (decorateFlatE g c glErr clErr (i + xs.length) ys).2) := by
  intro xs
  induction xs with
  | nil => intro ys i _; simp [decorateFlatE]
  | cons a rest ih =>
      intro ys i h
      rcases hone : decorateOneE g c glErr clErr i a with ⟨a1, err1⟩
      cases err1 with
      | some e1 =>
          simp [decorateFlatE, hone] at h
      | none =>
          simp [decorateFlatE, hone] at h
          have hih := ih ys (i + 1) h
          have eidx : i + (rest.length + 1) = i + 1 + rest.length := by omega
          simp [decorateFlatE, hone, hih, List.length_cons, eidx]

theorem decorateRowsE_flatten {ε : Type} (g : GridlinesCall)
    (c : CoastlinesCall) (glErr clErr : Nat → Option ε) :
    ∀ (m : List (List Axes)) (i : Nat),
    (decorateRowsE g c glErr clErr i m).1.flatten =
      (decorateFlatE g c glErr clErr i m.flatten).1 ∧
    (decorateRowsE g c glErr clErr i m).2 =
      (decorateFlatE g c glErr clErr i m.flatten).2 := by
  intro m
  induction m with
  | nil => intro i; simp [decorateRowsE, decorateFlatE]
  | cons row rest ih =>
      intro i
      rcases hrow : decorateFlatE g c glErr clErr i row with ⟨row1, err1⟩
      cases err1 with
      | some e =>
          have happ := decorateFlatE_append_err g c glErr clErr e row
            rest.flatten i (by rw [hrow])
          rw [hrow] at happ
          simp [decorateRowsE, hrow, List.flatten_cons, happ]
      | none =>
          have happ := decorateFlatE_append_ok g c glErr clErr row
            rest.flatten i (by rw [hrow])
          rw [hrow] at happ
          have ihr := ih (i + row.length)
          simp [decorateRowsE, hrow, List.flatten_cons, happ, ihr.1, ihr.2]

theorem decorateRowsE_none {ε : Type} (g : GridlinesCall) (c : CoastlinesCall)
    (glErr clErr : Nat → Option ε) :
    ∀ (m : List (List Axes)) (i : Nat),
    (∀ j, j < m.flatten.length → glErr (i + j) = none ∧ clErr (i + j) = none) →
    decorateRowsE g c glErr clErr i m =
      (m.map (List.map (decorate g c)), none) := by
  intro m
  induction m with
  | nil => intro i _; rfl
  | cons row rest ih =>
      intro i h
      have hrow := decorateFlatE_none g c glErr clErr row i (fun j hj =>
        h j (by rw [List.flatten_cons, List.length_append]; omega))
      have hrest := ih (i + row.length) (fun j hj => by
        have hh := h (row.length + j)
          (by rw [List.flatten_cons, List.length_append]; omega)
        have eidx : i + (row.length + j) = i + row.length + j := by omega
        rw [eidx] at hh
        exact hh)
      simp [decorateRowsE, hrow, hrest]

theorem quick_drawE_ok {ε : Type} (nrows ncols : Nat) (cl : Rat)
    (g : GridlinesCall) (c : CoastlinesCall) (glErr clErr : Nat → Option ε)
    (h : ∀ j, j < nrows * ncols → glErr j = none ∧ clErr j = none) :
    quick_draw_spatial_basemapE nrows ncols cl g c none glErr clErr =
      RunOutcome.ok { nrows := nrows, ncols := ncols }
        (AxesReturn.map (decorate g c)
          ((subplots nrows ncols { central_longitude := cl }).2)) := by
  by_cases h1 : nrows = 1 ∧ ncols = 1
  · obtain ⟨ha, hb⟩ := h1
    subst ha; subst hb
    have h0 := h 0 (by omega)
    have hone := decorateOneE_none g c glErr clErr 0
      (freshAxes { central_longitude := cl }) h0.1 h0.2
    simp [quick_draw_spatial_basemapE, subplots, hone, AxesReturn.map]
  · by_cases h2 : nrows = 1 ∨ ncols = 1
    · have hflat := decorateFlatE_none g c glErr clErr
        (List.replicate (nrows * ncols) (freshAxes { central_longitude := cl }))
        0 (fun j hj => by
          have hj2 : j < nrows * ncols := by simpa using hj
          simpa using h j hj2)
      simp [quick_draw_spatial_basemapE, subplots, h1, h2, hflat,
        AxesReturn.map, List.map_replicate]
    · have hrows := decorateRowsE_none g c glErr clErr
        (List.replicate nrows
          (List.replicate ncols (freshAxes { central_longitude := cl })))
        0 (fun j hj => by
          rw [flatten_replicate_replicate] at hj
          simp at hj
          simpa using h j hj)
      simp [quick_draw_spatial_basemapE, subplots, h1, h2, hrows,
        AxesReturn.map, List.map_replicate]

theorem quick_drawE_raised_of_subErr {ε : Type} (nrows ncols : Nat)
    (cl : Rat) (g : GridlinesCall) (c : CoastlinesCall) (e : ε)
    (glErr clErr : Nat → Option ε) :
    quick_draw_spatial_basemapE nrows ncols cl g c (some e) glErr clErr =
      RunOutcome.raised e none := rfl

theorem quick_drawE_bridge {ε : Type} (nrows ncols : Nat) (cl : Rat)
    (g : GridlinesCall) (c : CoastlinesCall) (glErr clErr : Nat → Option ε) :
    (quick_draw_spatial_basemapE nrows ncols cl g c none glErr clErr).error? =
      (decorateFlatE g c glErr clErr 0
        (List.replicate (nrows * ncols)
          (freshAxes { central_longitude := cl }))).2 ∧
    (quick_draw_spatial_basemapE nrows ncols cl g c none glErr clErr).axesState =
      some (decorateFlatE g c glErr clErr 0
        (List.replicate (nrows * ncols)
          (freshAxes { central_longitude := cl }))).1 := by
  by_cases h1 : nrows = 1 ∧ ncols = 1
  · obtain ⟨ha, hb⟩ := h1
    subst ha; subst hb
    rcases hone : decorateOneE g c glErr clErr 0
        (freshAxes { central_longitude := cl }) with ⟨a1, err1⟩
    cases err1 with
    | some e =>
        simp [quick_draw_spatial_basemapE, subplots, hone, RunOutcome.error?,
          RunOutcome.axesState, AxesReturn.flat, decorateFlatE]
    | none =>
        simp [quick_draw_spatial_basemapE, subplots, hone, RunOutcome.error?,
          RunOutcome.axesState, AxesReturn.flat, decorateFlatE]
  · by_cases h2 : nrows = 1 ∨ ncols = 1
    · rcases hflat : decorateFlatE g c glErr clErr 0
          (List.replicate (nrows * ncols)
            (freshAxes { central_longitude := cl })) with ⟨v1, err1⟩
      cases err1 with
      | some e =>
          simp [quick_draw_spatial_basemapE, subplots, h1, h2, hflat,
            RunOutcome.error?, RunOutcome.axesState, AxesReturn.flat]
      | none =>
          simp [quick_draw_spatial_basemapE, subplots, h1, h2, hflat,
            RunOutcome.error?, RunOutcome.axesState, AxesReturn.flat]
    · have hrows := decorateRowsE_flatten g c glErr clErr
        (List.replicate nrows (List.replicate ncols
          (freshAxes { central_longitude := cl }))) 0
      rw [flatten_replicate_replicate] at hrows
      rcases hrowsE : decorateRowsE g c glErr clErr 0
          (List.replicate nrows (List.replicate ncols
            (freshAxes { central_longitude := cl }))) with ⟨m1, err1⟩
      rw [hrowsE] at hrows
      cases err1 with
      | some e =>
          simp [quick_draw_spatial_basemapE, subplots, h1, h2, hrowsE,
            RunOutcome.error?, RunOutcome.axesState, AxesReturn.flat,
            hrows.1, ← hrows.2]
      | none =>
          simp [quick_draw_spatial_basemapE, subplots, h1, h2, hrowsE,
            RunOutcome.error?, RunOutcome.axesState, AxesReturn.flat,
            hrows.1, ← hrows.2]

/-! ### Claim theorems -/

/-- C1: for every call to `quick_draw_spatial_basemap`, if `nrows = 1` and
`ncols = 1` the returned surface value is a single scalar surface (not
wrapped in a sequence) and it is decorated directly; otherwise decoration is
applied to every element of the flattened sequence of `nrows * ncols`
surfaces, in row-major flattened order, regardless of the requested grid
shape, each element receiving exactly one gridline decoration and one
coastline decoration with identical style parameters. -/
theorem C1_decoration_iteration_target (nrows ncols : Nat) (cl : Rat)
    (dl : DrawLabels) (gc : String) (ga : Rat) (gs : String)
    (ce : String) (cw : Rat) :
    (nrows = 1 ∧ ncols = 1 →
      (quick_draw_spatial_basemap nrows ncols cl dl gc ga gs ce cw).ax =
        AxesReturn.scalar
          (decorate
            { draw_labels := dl, color := gc, alpha := ga, linestyle := gs }
            { edgecolor := ce, linewidths := cw }
            (freshAxes { central_longitude := cl }))) ∧
    (¬(nrows = 1 ∧ ncols = 1) →
      (quick_draw_spatial_basemap nrows ncols cl dl gc ga gs ce cw).ax.flat =
        List.replicate (nrows * ncols)
          (decorate
            { draw_labels := dl, color := gc, alpha := ga, linestyle := gs }
            { edgecolor := ce, linewidths := cw }
            (freshAxes { central_longitude := cl }))) := by
  constructor
  · rintro ⟨ha, hb⟩
    subst ha; subst hb
    rw [quick_draw_ax_map]
    simp [subplots, AxesReturn.map]
  · intro _
    exact quick_draw_ax_flat nrows ncols cl dl gc ga gs ce cw

/-- Witness for C1: a default-styled 1×1 call yields the directly decorated
scalar surface, and a default-styled 2×3 call yields six decorated surfaces
in flattened order. -/
theorem C1_decoration_iteration_target_witness :
    (quick_draw_spatial_basemap 1 1 0 defaultDrawLabels
        "grey" (1/2) "--" "black" (1/2)).ax =
      AxesReturn.scalar
        (decorate
          { draw_labels := defaultDrawLabels, color := "grey", alpha := 1/2,
            linestyle := "--" }
          { edgecolor := "black", linewidths := 1/2 }
          (freshAxes { central_longitude := 0 })) ∧
    (quick_draw_spatial_basemap 2 3 0 defaultDrawLabels
        "grey" (1/2) "--" "black" (1/2)).ax.flat =
      List.replicate 6
        (decorate
          { draw_labels := defaultDrawLabels, color := "grey", alpha := 1/2,
            linestyle := "--" }
          { edgecolor := "black", linewidths := 1/2 }
          (freshAxes { central_longitude := 0 })) :=
  ⟨(C1_decoration_iteration_target 1 1 0 defaultDrawLabels
      "grey" (1/2) "--" "black" (1/2)).1 (by decide),
   (C1_decoration_iteration_target 2 3 0 defaultDrawLabels
      "grey" (1/2) "--" "black" (1/2)).2 (by decide)⟩

/-- C2 counterexample: for `nrows = 1, ncols = 2` — where `ncols` exceeds 1 —
the returned surface collection is a 1-dimensional array of two surfaces, of
shape `[2]`, not an array of shape `(nrows, ncols) = [1, 2]` as the claim
states. -/
theorem C2_return_shape_counterexample :
    (quick_draw_spatial_basemap 1 2 0 defaultDrawLabels
        "grey" (1/2) "--" "black" (1/2)).ax.shape = [2] ∧
    (quick_draw_spatial_basemap 1 2 0 defaultDrawLabels
        "grey" (1/2) "--" "black" (1/2)).ax.shape ≠ [1, 2] := by
  constructor
  · decide
  · decide

/-- C2 amended: when both `nrows` and `ncols` exceed 1 the returned surface
collection has shape `(nrows, ncols)`; when exactly one of them exceeds 1 the
collection is a 1-dimensional sequence of `nrows * ncols` surfaces; when both
equal 1 the return is a single scalar surface. -/
theorem C2_return_shape (nrows ncols : Nat) (cl : Rat) (dl : DrawLabels)
    (gc : String) (ga : Rat) (gs : String) (ce : String) (cw : Rat) :
    (1 < nrows ∧ 1 < ncols →
      (quick_draw_spatial_basemap nrows ncols cl dl gc ga gs ce cw).ax.shape =
        [nrows, ncols]) ∧
    ((nrows = 1 ∧ 1 < ncols) ∨ (1 < nrows ∧ ncols = 1) →
      (quick_draw_spatial_basemap nrows ncols cl dl gc ga gs ce cw).ax.shape =
        [nrows * ncols]) ∧
    (nrows = 1 ∧ ncols = 1 →
      (quick_draw_spatial_basemap nrows ncols cl dl gc ga gs ce cw).ax =
        AxesReturn.scalar
          (decorate
            { draw_labels := dl, color := gc, alpha := ga, linestyle := gs }
            { edgecolor := ce, linewidths := cw }
            (freshAxes { central_longitude := cl }))) := by
  refine ⟨?_, ?_, ?_⟩
  · rintro ⟨hr, hc⟩
    have h1 : ¬(nrows = 1 ∧ ncols = 1) := by omega
    have h2 : ¬(nrows = 1 ∨ ncols = 1) := by omega
    rw [quick_draw_ax_map]
    simp only [subplots]
    rw [if_neg h1, if_neg h2]
    obtain ⟨k, rfl⟩ : ∃ k, nrows = k + 1 := ⟨nrows - 1, by omega⟩
    simp [AxesReturn.map, AxesReturn.shape, List.map_replicate,
      List.replicate_succ]
  · intro h
    rw [quick_draw_ax_map]
    have h1 : ¬(nrows = 1 ∧ ncols = 1) := by omega
    have h2 : nrows = 1 ∨ ncols = 1 := by omega
    simp [subplots, h1, h2, AxesReturn.map, AxesReturn.shape,
      List.map_replicate]
  · rintro ⟨ha, hb⟩
    subst ha; subst hb
    rw [quick_draw_ax_map]
    simp [subplots, AxesReturn.map]

/-- Witness for C2 (amended): concrete shapes for 2×3, 1×2 and 1×1 grids. -/
theorem C2_return_shape_witness :
    (quick_draw_spatial_basemap 2 3 0 defaultDrawLabels
        "grey" (1/2) "--" "black" (1/2)).ax.shape = [2, 3] ∧
    (quick_draw_spatial_basemap 1 2 0 defaultDrawLabels
        "grey" (1/2) "--" "black" (1/2)).ax.shape = [2] ∧
    (quick_draw_spatial_basemap 1 1 0 defaultDrawLabels
        "grey" (1/2) "--" "black" (1/2)).ax =
      AxesReturn.scalar
        (decorate
          { draw_labels := defaultDrawLabels, color := "grey", alpha := 1/2,
            linestyle := "--" }
          { edgecolor := "black", linewidths := 1/2 }
          (freshAxes { central_longitude := 0 })) :=
  ⟨(C2_return_shape 2 3 0 defaultDrawLabels
      "grey" (1/2) "--" "black" (1/2)).1 (by decide),
   (C2_return_shape 1 2 0 defaultDrawLabels
      "grey" (1/2) "--" "black" (1/2)).2.1 (by decide),
   (C2_return_shape 1 1 0 defaultDrawLabels
      "grey" (1/2) "--" "black" (1/2)).2.2 (by decide)⟩

/-- C3: every surface's projection is the Plate Carrée projection with the
given `central_longitude`, built by the single shared construction call, so
it is identical across every surface of the grid; and `central_longitude =
180` yields a projection distinct from the default `0°` projection. -/
theorem C3_shared_projection (nrows ncols : Nat) (cl : Rat)
    (dl : DrawLabels) (gc : String) (ga : Rat) (gs : String)
    (ce : String) (cw : Rat) :
    (∀ a ∈ (quick_draw_spatial_basemap nrows ncols cl dl gc ga gs ce cw).ax.flat,
      a.projection = { central_longitude := cl }) ∧
    (∀ a ∈ (quick_draw_spatial_basemap nrows ncols cl dl gc ga gs ce cw).ax.flat,
      ∀ b ∈ (quick_draw_spatial_basemap nrows ncols cl dl gc ga gs ce cw).ax.flat,
      a.projection = b.projection) ∧
    ({ central_longitude := (180 : Rat) } : PlateCarree) ≠
      { central_longitude := (0 : Rat) } := by
  refine ⟨?_, ?_, ?_⟩
  · intro a ha
    rw [quick_draw_ax_flat] at ha
    rw [List.eq_of_mem_replicate ha]
    rfl
  · intro a ha b hb
    rw [quick_draw_ax_flat] at ha
    rw [quick_draw_ax_flat] at hb
    rw [List.eq_of_mem_replicate ha, List.eq_of_mem_replicate hb]
  · decide

/-- Witness for C3: the single surface of a `central_longitude = 180` call
carries the 180° projection. -/
theorem C3_shared_projection_witness :
    (decorate
      { draw_labels := defaultDrawLabels, color := "grey", alpha := 1/2,
        linestyle := "--" }
      { edgecolor := "black", linewidths := 1/2 }
      (freshAxes { central_longitude := 180 })).projection =
      { central_longitude := (180 : Rat) } :=
  (C3_shared_projection 1 1 180 defaultDrawLabels
      "grey" (1/2) "--" "black" (1/2)).1
    (decorate
      { draw_labels := defaultDrawLabels, color := "grey", alpha := 1/2,
        linestyle := "--" }
      { edgecolor := "black", linewidths := 1/2 }
      (freshAxes { central_longitude := 180 }))
    (by rw [quick_draw_ax_flat]; exact List.mem_replicate.mpr ⟨by simp, rfl⟩)

/-- C4: each surface receives exactly two decoration operations, in order:
first the gridline decoration with the gridline style parameters and the
label selector, then the coastline decoration with the coastline style
parameters. -/
theorem C4_two_decorations_in_order (nrows ncols : Nat) (cl : Rat)
    (dl : DrawLabels) (gc : String) (ga : Rat) (gs : String)
    (ce : String) (cw : Rat) :
    ∀ a ∈ (quick_draw_spatial_basemap nrows ncols cl dl gc ga gs ce cw).ax.flat,
      a.decorations =
        [Decoration.gridlines
          { draw_labels := dl, color := gc, alpha := ga, linestyle := gs },
         Decoration.coastlines { edgecolor := ce, linewidths := cw }] := by
  intro a ha
  rw [quick_draw_ax_flat] at ha
  rw [List.eq_of_mem_replicate ha]
  rfl

/-- Witness for C4: the decoration record of the single surface of a default
1×1 call. -/
theorem C4_two_decorations_in_order_witness :
    (decorate
      { draw_labels := defaultDrawLabels, color := "grey", alpha := 1/2,
        linestyle := "--" }
      { edgecolor := "black", linewidths := 1/2 }
      (freshAxes { central_longitude := 0 })).decorations =
      [Decoration.gridlines
        { draw_labels := defaultDrawLabels, color := "grey", alpha := 1/2,
          linestyle := "--" },
       Decoration.coastlines { edgecolor := "black", linewidths := 1/2 }] :=
  C4_two_decorations_in_order 1 1 0 defaultDrawLabels
    "grey" (1/2) "--" "black" (1/2)
    (decorate
      { draw_labels := defaultDrawLabels, color := "grey", alpha := 1/2,
        linestyle := "--" }
      { edgecolor := "black", linewidths := 1/2 }
      (freshAxes { central_longitude := 0 }))
    (by rw [quick_draw_ax_flat]; exact List.mem_replicate.mpr ⟨by simp, rfl⟩)

/-- C5: the no-argument invocation produces a 1×1 grid whose single surface
is decorated with labels on the bottom and left sides only, grey gridlines at
alpha 0.5 with dashed linestyle, and black coastlines of line width 0.5. -/
theorem C5_default_invocation :
    quick_draw_spatial_basemap_defaults =
      { fig := { nrows := 1, ncols := 1 },
        ax := AxesReturn.scalar
          { projection := { central_longitude := 0 },
            decorations :=
              [Decoration.gridlines
                { draw_labels := DrawLabels.list ["bottom", "left"],
                  color := "grey", alpha := 1/2, linestyle := "--" },
               Decoration.coastlines
                { edgecolor := "black", linewidths := 1/2 }] },
        draw_labels_final := DrawLabels.list ["bottom", "left"] } := rfl

/-- C6: whatever value `draw_labels` holds — string, boolean, list, or dict —
that exact value is the label selector of every gridline decoration applied
by the call: it is forwarded unmodified and untransformed. -/
theorem C6_draw_labels_forwarded (nrows ncols : Nat) (cl : Rat)
    (dl : DrawLabels) (gc : String) (ga : Rat) (gs : String)
    (ce : String) (cw : Rat) :
    ∀ a ∈ (quick_draw_spatial_basemap nrows ncols cl dl gc ga gs ce cw).ax.flat,
      ∀ gcall : GridlinesCall,
        Decoration.gridlines gcall ∈ a.decorations →
        gcall.draw_labels = dl := by
  intro a ha gcall hmem
  rw [quick_draw_ax_flat] at ha
  rw [List.eq_of_mem_replicate ha] at hmem
  simp [decorate, freshAxes] at hmem
  rw [hmem]

/-- Witness for C6: the exact dict `{"bottom": "x", "left": "y"}` reaches the
gridline decoration of a call that passes it. -/
theorem C6_draw_labels_forwarded_witness :
    ({ draw_labels := DrawLabels.dict [("bottom", "x"), ("left", "y")],
       color := "grey", alpha := 1/2, linestyle := "--" } :
        GridlinesCall).draw_labels =
      DrawLabels.dict [("bottom", "x"), ("left", "y")] :=
  C6_draw_labels_forwarded 1 1 0
    (DrawLabels.dict [("bottom", "x"), ("left", "y")])
    "grey" (1/2) "--" "black" (1/2)
    (decorate
      { draw_labels := DrawLabels.dict [("bottom", "x"), ("left", "y")],
        color := "grey", alpha := 1/2, linestyle := "--" }
      { edgecolor := "black", linewidths := 1/2 }
      (freshAxes { central_longitude := 0 }))
    (by rw [quick_draw_ax_flat]; exact List.mem_replicate.mpr ⟨by simp, rfl⟩)
    { draw_labels := DrawLabels.dict [("bottom", "x"), ("left", "y")],
      color := "grey", alpha := 1/2, linestyle := "--" }
    (by simp [decorate, freshAxes])

/-- C9: the call returns exactly the figure and the axes value produced by
the construction call: the figure unchanged, and the axes value changed only
by applying the decoration to each surface in place — same structure, no
re-wrapping, no replacement, no other post-processing. -/
theorem C9_returns_constructed_objects (nrows ncols : Nat) (cl : Rat)
    (dl : DrawLabels) (gc : String) (ga : Rat) (gs : String)
    (ce : String) (cw : Rat) :
    (quick_draw_spatial_basemap nrows ncols cl dl gc ga gs ce cw).fig =
      (subplots nrows ncols { central_longitude := cl }).1 ∧
    (quick_draw_spatial_basemap nrows ncols cl dl gc ga gs ce cw).ax =
      AxesReturn.map
        (decorate { draw_labels := dl, color := gc, alpha := ga, linestyle := gs }
          { edgecolor := ce, linewidths := cw })
        ((subplots nrows ncols { central_longitude := cl }).2) := by
  constructor
  · rw [quick_draw_fig, subplots_fst]
  · exact quick_draw_ax_map nrows ncols cl dl gc ga gs ce cw

/-- C10: the function never mutates its arguments: the `draw_labels` object's
state after any call equals its state before, so repeated invocations with no
arguments — which all share the one default list object — each observe the
default label placement and return the default result. -/
theorem C10_no_argument_mutation :
    (∀ (nrows ncols : Nat) (cl : Rat) (dl : DrawLabels) (gc : String)
        (ga : Rat) (gs : String) (ce : String) (cw : Rat),
      (quick_draw_spatial_basemap nrows ncols cl dl gc ga gs ce cw).draw_labels_final
        = dl) ∧
    (∀ n : Nat,
      repeatedDefaultCalls n defaultDrawLabels =
        List.replicate n quick_draw_spatial_basemap_defaults) := by
  constructor
  · intro nrows ncols cl dl gc ga gs ce cw
    rfl
  · intro n
    induction n with
    | zero => rfl
    | succ k ih =>
        have hstep : repeatedDefaultCalls (k + 1) defaultDrawLabels =
            quick_draw_spatial_basemap_defaults ::
              repeatedDefaultCalls k defaultDrawLabels := rfl
        rw [hstep, ih, List.replicate_succ]

/-- C7 counterexample: in a 1×2 grid where the coastline call on flat surface
0 raises `"boom"`, the call fails with that error — but surface 0 does not
"remain undecorated" as the claim states: it retains its gridline
decoration, so its decoration list is nonempty. -/
theorem C7_counterexample :
    quick_draw_spatial_basemapE 1 2 0
      { draw_labels := defaultDrawLabels, color := "grey", alpha := 1/2,
        linestyle := "--" }
      { edgecolor := "black", linewidths := 1/2 }
      (none : Option String) (fun _ => none)
      (fun i => if i = 0 then some "boom" else none) =
      RunOutcome.raised "boom"
        (some ({ nrows := 1, ncols := 2 },
          AxesReturn.array1
            [gridlinesOnly
              { draw_labels := defaultDrawLabels, color := "grey",
                alpha := 1/2, linestyle := "--" }
              (freshAxes { central_longitude := 0 }),
             freshAxes { central_longitude := 0 }])) ∧
    (gridlinesOnly
      { draw_labels := defaultDrawLabels, color := "grey", alpha := 1/2,
        linestyle := "--" }
      (freshAxes { central_longitude := 0 })).decorations ≠ [] := by
  constructor
  · rfl
  · simp [gridlinesOnly, freshAxes]

/-- C7 amended: either the whole construction-and-decoration sequence
succeeds and the fully decorated figure and surface collection is returned,
or the call fails with the provider's error untranslated and nothing is
handed back; if construction fails no surface reference exists, and if
decoration fails on flat surface `k` then every surface before `k` is fully
decorated, surface `k` retains exactly the decorations applied before the
failing call (none when its gridline call failed; only its gridline
decoration when its coastline call failed), and all subsequent surfaces
remain undecorated — no cleanup or rollback is performed. -/
theorem C7_failure_atomicity {ε : Type} (nrows ncols : Nat) (cl : Rat)
    (g : GridlinesCall) (c : CoastlinesCall) (subplotsErr : Option ε)
    (glErr clErr : Nat → Option ε) :
    (∀ e, subplotsErr = some e →
      quick_draw_spatial_basemapE nrows ncols cl g c subplotsErr glErr clErr =
        RunOutcome.raised e none) ∧
    (subplotsErr = none →
      (∀ j, j < nrows * ncols → glErr j = none ∧ clErr j = none) →
      quick_draw_spatial_basemapE nrows ncols cl g c subplotsErr glErr clErr =
        RunOutcome.ok { nrows := nrows, ncols := ncols }
          (AxesReturn.map (decorate g c)
            ((subplots nrows ncols { central_longitude := cl }).2))) ∧
    (∀ e k, subplotsErr = none → k < nrows * ncols →
      (∀ j, j < k → glErr j = none ∧ clErr j = none) →
      glErr k = some e →
      (quick_draw_spatial_basemapE nrows ncols cl g c subplotsErr glErr clErr).error?
          = some e ∧
      (quick_draw_spatial_basemapE nrows ncols cl g c subplotsErr glErr clErr).axesState
          = some (List.replicate k
              (decorate g c (freshAxes { central_longitude := cl })) ++
            List.replicate (nrows * ncols - k)
              (freshAxes { central_longitude := cl }))) ∧
    (∀ e k, subplotsErr = none → k < nrows * ncols →
      (∀ j, j < k → glErr j = none ∧ clErr j = none) →
      glErr k = none → clErr k = some e →
      (quick_draw_spatial_basemapE nrows ncols cl g c subplotsErr glErr clErr).error?
          = some e ∧
      (quick_draw_spatial_basemapE nrows ncols cl g c subplotsErr glErr clErr).axesState
          = some (List.replicate k
              (decorate g c (freshAxes { central_longitude := cl })) ++
            gridlinesOnly g (freshAxes { central_longitude := cl }) ::
            List.replicate (nrows * ncols - k - 1)
              (freshAxes { central_longitude := cl }))) := by
  refine ⟨?_, ?_, ?_, ?_⟩
  · intro e he
    rw [he]
    rfl
  · intro hs h
    subst hs
    exact quick_drawE_ok nrows ncols cl g c glErr clErr h
  · intro e k hs hk h hgl
    subst hs
    have hb := quick_drawE_bridge nrows ncols cl g c glErr clErr
    have hfail := decorateFlatE_glErr g c glErr clErr
      (freshAxes { central_longitude := cl }) e k (nrows * ncols) 0 hk
      (fun j hj => by simpa using h j hj) (by simpa using hgl)
    constructor
    · rw [hb.1, hfail]
    · rw [hb.2, hfail]
  · intro e k hs hk h hgl hcl
    subst hs
    have hb := quick_drawE_bridge nrows ncols cl g c glErr clErr
    have hfail := decorateFlatE_clErr g c glErr clErr
      (freshAxes { central_longitude := cl }) e k (nrows * ncols) 0 hk
      (fun j hj => by simpa using h j hj) (by simpa using hgl)
      (by simpa using hcl)
    constructor
    · rw [hb.1, hfail]
    · rw [hb.2, hfail]

/-- Witness for C7 (amended): in a 1×2 grid whose coastline call on flat
surface 0 raises `"boom"`, the escaping error is the provider's, and the
left-behind surfaces are: surface 0 with exactly its gridline decoration and
surface 1 undecorated. -/
theorem C7_failure_atomicity_witness :
    (quick_draw_spatial_basemapE 1 2 0
      { draw_labels := defaultDrawLabels, color := "grey", alpha := 1/2,
        linestyle := "--" }
      { edgecolor := "black", linewidths := 1/2 }
      (none : Option String) (fun _ => none)
      (fun i => if i = 0 then some "boom" else none)).error? = some "boom" ∧
    (quick_draw_spatial_basemapE 1 2 0
      { draw_labels := defaultDrawLabels, color := "grey", alpha := 1/2,
        linestyle := "--" }
      { edgecolor := "black", linewidths := 1/2 }
      (none : Option String) (fun _ => none)
      (fun i => if i = 0 then some "boom" else none)).axesState =
      some [gridlinesOnly
              { draw_labels := defaultDrawLabels, color := "grey",
                alpha := 1/2, linestyle := "--" }
              (freshAxes { central_longitude := 0 }),
            freshAxes { central_longitude := 0 }] :=
  (C7_failure_atomicity 1 2 0
    { draw_labels := defaultDrawLabels, color := "grey", alpha := 1/2,
      linestyle := "--" }
    { edgecolor := "black", linewidths := 1/2 }
    none (fun _ => none)
    (fun i => if i = 0 then some "boom" else none)).2.2.2
    "boom" 0 rfl (by omega) (fun j hj => absurd hj (by omega)) rfl rfl

/-- C8: the function performs no validation of its own: any error escaping a
call is exactly an error some provider call raised, propagated untranslated;
and when no provider call fails the call raises nothing, for every grid
shape, with no check that `nrows ≥ 1` or `ncols ≥ 1`. -/
theorem C8_no_own_validation {ε : Type} (nrows ncols : Nat) (cl : Rat)
    (g : GridlinesCall) (c : CoastlinesCall) (subplotsErr : Option ε)
    (glErr clErr : Nat → Option ε) :
    (∀ e : ε,
      (quick_draw_spatial_basemapE nrows ncols cl g c subplotsErr glErr clErr).error?
          = some e →
      subplotsErr = some e ∨ (∃ j, glErr j = some e) ∨ ∃ j, clErr j = some e) ∧
    (subplotsErr = none → (∀ j, glErr j = none) → (∀ j, clErr j = none) →
      (quick_draw_spatial_basemapE nrows ncols cl g c subplotsErr glErr clErr).error?
          = none) := by
  constructor
  · intro e he
    cases subplotsErr with
    | some e0 =>
        left
        simp [quick_draw_spatial_basemapE, RunOutcome.error?] at he
        rw [he]
    | none =>
        right
        rw [(quick_drawE_bridge nrows ncols cl g c glErr clErr).1] at he
        obtain ⟨j, hj⟩ := decorateFlatE_err g c glErr clErr e _ 0 he
        cases hj with
        | inl h => exact Or.inl ⟨j, h⟩
        | inr h => exact Or.inr ⟨j, h⟩
  · intro hs hg hc
    subst hs
    rw [(quick_drawE_bridge nrows ncols cl g c glErr clErr).1,
      decorateFlatE_none g c glErr clErr _ 0 (fun j _ => ⟨hg _, hc _⟩)]

/-- Witness for C8: with no provider failure, a call with `nrows = 0` — a
grid size that would violate the unchecked `nrows ≥ 1` condition — still
raises nothing of the function's own. -/
theorem C8_no_own_validation_witness :
    (quick_draw_spatial_basemapE 0 5 0
      { draw_labels := defaultDrawLabels, color := "grey", alpha := 1/2,
        linestyle := "--" }
      { edgecolor := "black", linewidths := 1/2 }
      (none : Option String) (fun _ => none) (fun _ => none)).error? = none :=
  (C8_no_own_validation 0 5 0
    { draw_labels := defaultDrawLabels, color := "grey", alpha := 1/2,
      linestyle := "--" }
    { edgecolor := "black", linewidths := 1/2 }
    none (fun _ => none) (fun _ => none)).2 rfl (fun _ => rfl) (fun _ => rfl)

end EasyClimate
